import Mathlib

/-!
Shallow embedding of the bounty-board webhook relay (src/index.ts).

The program polls an upstream bounty list, diffs it against a persisted
id → status map, and fires webhook events for new bounties and status
changes.  The embedding below translates the pure decision logic of the
source:

* `Bounty` mirrors the `Bounty` interface.  The upstream `reward` field is a
  numeric string holding a smallest-unit integer (per the data model); we
  embed its numeric value as an `Int`, leaving JS string-to-number coercion
  outside the model.  `FILTER_MIN_REWARD` is a `parseFloat` result, embedded
  as `ℚ`.
* The persisted `State.bounties` object (`Record<string, string>`) is an
  association list `StateRec`; `lookupStatus` is JS property read
  (`undefined` ↦ `none`) and `setStatus` is JS property assignment.
* `jsFalsy` embeds the JS truthiness test `!prevStatus` on
  `string | undefined`: both `undefined` and the empty string are falsy.
* Effects are made explicit: `poll` takes the loaded state, the fetch
  outcome (`none` = the fetch threw: transport error, non-ok HTTP status, or
  body decode failure), a flag for whether `saveState`'s `writeFileSync`
  throws, and a per-URL webhook transport-failure predicate.  Its outcome
  records the returned counters, the state written to disk (if any), the
  `fireWebhook` calls made, and the per-destination delivery attempts.
  Wall-clock payload timestamps are outside the model.
* `lowerStr` embeds `toLowerCase` per character (ASCII case mapping), and
  `jsParseInt`/`jsParseFloat` embed the JS numeric parsers on the inputs the
  configuration uses (`none` = NaN; exponent notation is not needed by any
  claim and is omitted).
-/

namespace BountyZapier

/-- Mirrors the `Bounty` interface of src/index.ts.  `reward` is the numeric
value carried by the upstream numeric string. -/
structure Bounty where
  id : String
  title : String
  description : String
  tags : List String
  reward : Int
  rewardFormatted : String
  status : String
  creator : String
  createdAt : Int
  updatedAt : Int
  claimedBy : Option String
  completedAt : Option Int
  requirements : Option (List String)
  deriving Repr, DecidableEq

/-- The closed event-name enumeration (`EventType` in src/index.ts). -/
inductive EventType where
  | created
  | claimed
  | submitted
  | completed
  | payment_failed
  deriving Repr, DecidableEq

/-- The configuration values the poll cycle reads: `WEBHOOK_URLS`,
`FILTER_TAGS` (already trimmed and lower-cased by startup loading), and
`FILTER_MIN_REWARD`. -/
structure Config where
  webhookUrls : List String
  filterTags : List String
  minReward : ℚ
  deriving Repr, DecidableEq

/-- The persisted `State.bounties` object: bounty id → last-observed status. -/
abbrev StateRec := List (String × String)

/-- JS property read `state.bounties[id]`: `none` when the key is absent. -/
def lookupStatus : StateRec → String → Option String
  | [], _ => none
  | (k, v) :: rest, i => if k = i then some v else lookupStatus rest i

/-- JS property assignment `state.bounties[id] = status`: overwrite the
existing entry, else add a new one. -/
def setStatus : StateRec → String → String → StateRec
  | [], i, s => [(i, s)]
  | (k, v) :: rest, i, s =>
    if k = i then (k, s) :: rest else (k, v) :: setStatus rest i s

/-- JS truthiness of `prevStatus : string | undefined`: `!prevStatus` is
true for `undefined` and for the empty string. -/
def jsFalsy : Option String → Bool
  | none => true
  | some s => s == ""

/-- Per-character lower-casing, embedding `String.prototype.toLowerCase` on
the ASCII range used by tags. -/
def lowerStr (s : String) : String := ⟨s.data.map Char.toLower⟩

/-- `matchesFilters` of src/index.ts: reject when a non-empty tag filter has
no (lower-cased) intersection with the bounty's tags; reject when a positive
minimum reward exceeds `Number(bounty.reward) / 1e6`; accept otherwise. -/
def matchesFilters (cfg : Config) (b : Bounty) : Bool :=
  if decide (cfg.filterTags.length > 0)
      && ! (b.tags.any fun t => cfg.filterTags.contains (lowerStr t)) then
    false
  else if decide (0 < cfg.minReward)
      && decide ((b.reward : ℚ) / 1000000 < cfg.minReward) then
    false
  else
    true

/-- The fixed `STATUS_TO_EVENT` lookup table: a partial map from status
string to event name. -/
def STATUS_TO_EVENT (s : String) : Option EventType :=
  if s = "open" then some EventType.created
  else if s = "claimed" then some EventType.claimed
  else if s = "submitted" then some EventType.submitted
  else if s = "completed" then some EventType.completed
  else if s = "payment_failed" then some EventType.payment_failed
  else none

/-- One delivery attempt performed by `fireWebhook`: destination URL, event,
bounty id, and whether the POST succeeded (a transport failure is caught and
only logged). -/
structure Delivery where
  url : String
  event : EventType
  bountyId : String
  ok : Bool
  deriving Repr, DecidableEq

/-- `fireWebhook`: POST the payload to every configured destination in
order; a failure on one destination is caught, logged and does not affect
the others.  `webhookFails u = true` means the POST to `u` throws. -/
def fireWebhook (urls : List String) (webhookFails : String → Bool)
    (e : EventType) (b : Bounty) : List Delivery :=
  urls.map fun u => ⟨u, e, b.id, ! webhookFails u⟩

/-- Accumulator of the `for (const bounty of bounties)` loop in `poll`:
the in-memory state object plus the `created`/`changed` counters and the
`fireWebhook` calls made so far (event and bounty of each payload). -/
structure PollAcc where
  state : StateRec
  created : Nat
  changed : Nat
  dispatches : List (EventType × Bounty)
  deriving Repr, DecidableEq

/-- The body of the per-bounty loop in `poll` (src/index.ts lines 118-147):
skip non-matching bounties; a falsy stored status means "new bounty"
(record status, fire `bounty.created` when destinations exist, bump
`created`); a differing truthy stored status means "status changed" (fire
the `STATUS_TO_EVENT` event when mapped and destinations exist, overwrite
the stored status, bump `changed`); otherwise do nothing. -/
def processBounty (cfg : Config) (acc : PollAcc) (b : Bounty) : PollAcc :=
  if matchesFilters cfg b then
    let prevStatus := lookupStatus acc.state b.id
    if jsFalsy prevStatus then
      { state := setStatus acc.state b.id b.status,
        created := acc.created + 1,
        changed := acc.changed,
        dispatches := acc.dispatches ++
          (if cfg.webhookUrls.length > 0 then [(EventType.created, b)] else []) }
    else if prevStatus ≠ some b.status then
      { state := setStatus acc.state b.id b.status,
        created := acc.created,
        changed := acc.changed + 1,
        dispatches := acc.dispatches ++
          (match STATUS_TO_EVENT b.status with
            | some e => if cfg.webhookUrls.length > 0 then [(e, b)] else []
            | none => []) }
    else
      acc
  else
    acc

/-- The whole per-bounty loop of `poll`, run over the fetched list from the
loaded state with zeroed counters. -/
def runCycle (cfg : Config) (st : StateRec) (L : List Bounty) : PollAcc :=
  L.foldl (processBounty cfg) ⟨st, 0, 0, []⟩

/-- Counters returned by `poll`. -/
structure PollResult where
  created : Nat
  changed : Nat
  errors : Nat
  deriving Repr, DecidableEq

/-- Observable outcome of one `poll` call: the returned counters, the state
written by `saveState` (`none` when no write happened, leaving the file
unchanged), the `fireWebhook` calls, and the per-destination delivery
attempts. -/
structure PollOutcome where
  result : PollResult
  saved : Option StateRec
  dispatches : List (EventType × Bounty)
  deliveries : List Delivery
  deriving Repr, DecidableEq

/-- `poll` of src/index.ts, over the explicit effect inputs: `st0` is the
loaded state, `fetched` the outcome of `fetchBounties` (`none` = it threw),
`saveFails` whether `saveState` throws, `webhookFails` which destination
POSTs throw.  A fetch failure is caught: counters stay zero, `errors`
becomes 1, nothing is dispatched or saved.  A save failure is caught after
the loop: the accumulated counters are kept and `errors` becomes 1. -/
def poll (cfg : Config) (st0 : StateRec) (fetched : Option (List Bounty))
    (saveFails : Bool) (webhookFails : String → Bool) : PollOutcome :=
  match fetched with
  | none => ⟨⟨0, 0, 1⟩, none, [], []⟩
  | some L =>
    let acc := runCycle cfg st0 L
    let dels := acc.dispatches.flatMap fun p =>
      fireWebhook cfg.webhookUrls webhookFails p.1 p.2
    if saveFails then
      ⟨⟨acc.created, acc.changed, 1⟩, none, acc.dispatches, dels⟩
    else
      ⟨⟨acc.created, acc.changed, 0⟩, some acc.state, acc.dispatches, dels⟩

/-- The state persisted after a chain of successful polls, each fetching the
next list of `Ls` and starting from the previous cycle's saved state. -/
def pollStates (cfg : Config) : List (List Bounty) → StateRec → StateRec
  | [], st => st
  | L :: Ls, st => pollStates cfg Ls (runCycle cfg st L).state

/-! ### The `/bounties` POST proxy handler -/

/-- Outcome of the proxied upstream call in the `/bounties` POST branch:
`noResponse` when `req.text()` or the upstream `fetch` throws (transport
failure before any upstream response is obtained); `response status body`
when the upstream answered, with `body = none` when `res.json()` throws
(the body is not valid JSON) and `body = some j` its decoded JSON value. -/
inductive UpstreamOutcome where
  | noResponse
  | response (status : Nat) (body : Option String)
  deriving Repr, DecidableEq

/-- Body of the response the proxy hands back: the upstream JSON value, or
the fixed error object `error: "Failed to proxy bounty creation"`. -/
inductive ProxyBody where
  | upstream (body : String)
  | proxyError
  deriving Repr, DecidableEq

/-- The `/bounties` POST branch of the `Bun.serve` fetch handler
(src/index.ts lines 173-187): mirror the upstream status and decoded body;
any exception inside the `try` (transport failure or JSON decode failure)
yields the fixed 502 error response. -/
def handleCreateProxy : UpstreamOutcome → Nat × ProxyBody
  | UpstreamOutcome.noResponse => (502, ProxyBody.proxyError)
  | UpstreamOutcome.response _ none => (502, ProxyBody.proxyError)
  | UpstreamOutcome.response s (some j) => (s, ProxyBody.upstream j)

/-! ### Configuration loading (numeric environment values) -/

/-- Leading- and trailing-whitespace trim (JS numeric parsing skips leading
whitespace; trailing characters after the numeric prefix are ignored
anyway). -/
def trimChars (cs : List Char) : List Char :=
  ((cs.dropWhile Char.isWhitespace).reverse.dropWhile Char.isWhitespace).reverse

/-- Decimal value of a digit run. -/
def digitsToNat (ds : List Char) : Nat :=
  ds.foldl (fun a c => a * 10 + (c.toNat - 48)) 0

/-- `parseInt(s, 10)` after sign handling: longest digit prefix, NaN
(`none`) when there is none. -/
def jsParseIntChars (cs : List Char) : Option Int :=
  match cs with
  | '-' :: rest =>
    let ds := rest.takeWhile Char.isDigit
    if ds.isEmpty then none else some (-(digitsToNat ds : Int))
  | '+' :: rest =>
    let ds := rest.takeWhile Char.isDigit
    if ds.isEmpty then none else some ((digitsToNat ds : Int))
  | _ =>
    let ds := cs.takeWhile Char.isDigit
    if ds.isEmpty then none else some ((digitsToNat ds : Int))

/-- JS `parseInt(s, 10)`: `none` embeds NaN. -/
def jsParseInt (s : String) : Option Int := jsParseIntChars (trimChars s.toList)

/-- Unsigned decimal prefix with optional fractional part, as parsed by
`parseFloat` (exponent notation not modelled; no claim needs it). -/
def jsParseFloatDigits (cs : List Char) : Option ℚ :=
  let ip := cs.takeWhile Char.isDigit
  match cs.dropWhile Char.isDigit with
  | '.' :: r2 =>
    let fp := r2.takeWhile Char.isDigit
    if ip.isEmpty && fp.isEmpty then none
    else some ((digitsToNat ip : ℚ) + (digitsToNat fp : ℚ) / (10 ^ fp.length : ℚ))
  | _ => if ip.isEmpty then none else some ((digitsToNat ip : ℚ))

/-- `parseFloat(s)` after sign handling. -/
def jsParseFloatChars (cs : List Char) : Option ℚ :=
  match cs with
  | '-' :: rest => (jsParseFloatDigits rest).map (fun q => -q)
  | '+' :: rest => jsParseFloatDigits rest
  | _ => jsParseFloatDigits cs

/-- JS `parseFloat(s)`: `none` embeds NaN. -/
def jsParseFloat (s : String) : Option ℚ := jsParseFloatChars (trimChars s.toList)

/-- JS `process.env.X || dflt`: an unset (`none`) or empty (falsy) value is
replaced by the default string. -/
def envOrDefault (env : Option String) (dflt : String) : String :=
  match env with
  | none => dflt
  | some s => if s == "" then dflt else s

/-- `POLL_INTERVAL = parseInt(process.env.POLL_INTERVAL || "60", 10) * 1000`
(`none` embeds NaN, which `* 1000` keeps as NaN). -/
def loadPollIntervalMs (env : Option String) : Option Int :=
  (jsParseInt (envOrDefault env ("60"))).map (fun n => n * 1000)

/-- `FILTER_MIN_REWARD = parseFloat(process.env.FILTER_MIN_REWARD || "0")`. -/
def loadMinReward (env : Option String) : Option ℚ :=
  jsParseFloat (envOrDefault env ("0"))

/-- `PORT = parseInt(process.env.PORT || "3001", 10)`. -/
def loadPort (env : Option String) : Option Int :=
  jsParseInt (envOrDefault env ("3001"))

/-! ### Concrete fixtures used by witnesses and counterexamples -/

/-- A bounty with the given id and status and neutral remaining fields. -/
def sampleBounty (i st : String) : Bounty :=
  ⟨i, "Sample", "", [], 0, "0 USDC", st, "creator", 0, 0, none, none, none⟩

/-- Configuration with no destinations and no filters. -/
def cfgPlain : Config := ⟨[], [], 0⟩

/-- Configuration with one destination and no filters. -/
def cfgHooks : Config := ⟨["https://hooks.example/a"], [], 0⟩

/-- Configuration with one destination and a one-tag filter. -/
def cfgTagged : Config := ⟨["https://hooks.example/a"], ["ai"], 0⟩

/-- Webhook-failure predicate under which every delivery succeeds. -/
def noFail : String → Bool := fun _ => false

/-- Webhook-failure predicate under which every delivery throws. -/
def allFail : String → Bool := fun _ => true

/-! ### Lemmas about the state map -/

theorem lookupStatus_setStatus_self (st : StateRec) (i s : String) :
    lookupStatus (setStatus st i s) i = some s := by
  induction st with
  | nil => simp [setStatus, lookupStatus]
  | cons kv rest ih =>
    obtain ⟨k, v⟩ := kv
    by_cases h : k = i
    · simp [setStatus, lookupStatus, h]
    · simp [setStatus, lookupStatus, h, ih]

theorem lookupStatus_setStatus_ne (st : StateRec) (i s j : String) (h : j ≠ i) :
    lookupStatus (setStatus st i s) j = lookupStatus st j := by
  induction st with
  | nil => simp [setStatus, lookupStatus, Ne.symm h]
  | cons kv rest ih =>
    obtain ⟨k, v⟩ := kv
    by_cases hk : k = i
    · subst hk
      simp [setStatus, lookupStatus, Ne.symm h]
    · by_cases hj : k = j
      · subst hj
        simp [setStatus, lookupStatus, hk]
      · simp [setStatus, lookupStatus, hk, hj, ih]

/-! ### Lemmas about the per-bounty step -/

theorem processBounty_not_matching (cfg : Config) (acc : PollAcc) (b : Bounty)
    (h : matchesFilters cfg b = false) : processBounty cfg acc b = acc := by
  simp [processBounty, h]

theorem processBounty_lookup_self (cfg : Config) (acc : PollAcc) (b : Bounty)
    (hm : matchesFilters cfg b = true) :
    lookupStatus (processBounty cfg acc b).state b.id = some b.status := by
  unfold processBounty
  rcases hca : lookupStatus acc.state b.id with _ | s
  · simp [hm, hca, jsFalsy, lookupStatus_setStatus_self]
  · by_cases hse : s = ""
    · subst hse
      simp [hm, hca, jsFalsy, lookupStatus_setStatus_self]
    · by_cases he : s = b.status
      · subst he
        simp [hm, hca, jsFalsy, hse]
      · simp [hm, hca, jsFalsy, hse, he, lookupStatus_setStatus_self]

theorem processBounty_state_frame (cfg : Config) (acc : PollAcc) (b : Bounty)
    (i : String) (h : b.id ≠ i ∨ matchesFilters cfg b = false) :
    lookupStatus (processBounty cfg acc b).state i = lookupStatus acc.state i := by
  rcases h with h | h
  · have hset := lookupStatus_setStatus_ne acc.state b.id b.status i (Ne.symm h)
    by_cases hm : matchesFilters cfg b
    · unfold processBounty
      rcases hca : lookupStatus acc.state b.id with _ | s
      · simp [hm, hca, jsFalsy, hset]
      · by_cases hse : s = ""
        · subst hse
          simp [hm, hca, jsFalsy, hset]
        · by_cases he : s = b.status
          · subst he
            simp [hm, hca, jsFalsy, hse]
          · simp [hm, hca, jsFalsy, hse, he, hset]
    · rw [processBounty_not_matching cfg acc b (by simpa using hm)]
  · rw [processBounty_not_matching cfg acc b h]

theorem processBounty_stable (cfg : Config) (acc : PollAcc) (b : Bounty)
    (hprev : lookupStatus acc.state b.id = some b.status) (hs : b.status ≠ "") :
    processBounty cfg acc b = acc := by
  by_cases hm : matchesFilters cfg b
  · simp [processBounty, hm, hprev, jsFalsy, hs]
  · simp [processBounty, hm]

/-! ### Lemmas about the per-bounty loop -/

theorem foldl_state_frame (cfg : Config) (L : List Bounty) (i : String) :
    ∀ acc : PollAcc, (∀ b ∈ L, matchesFilters cfg b = true → b.id ≠ i) →
      lookupStatus (L.foldl (processBounty cfg) acc).state i = lookupStatus acc.state i := by
  induction L with
  | nil => intro acc _; rfl
  | cons hd tl ih =>
    intro acc h
    rw [List.foldl_cons, ih _ (fun b hb => h b (List.mem_cons_of_mem hd hb))]
    by_cases hm : matchesFilters cfg hd
    · exact processBounty_state_frame cfg acc hd i (Or.inl (h hd (List.mem_cons_self hd tl) hm))
    · exact processBounty_state_frame cfg acc hd i
        (Or.inr (by simpa using hm))

theorem foldl_lookup_of_mem (cfg : Config) (L : List Bounty) :
    ∀ acc : PollAcc, (L.map Bounty.id).Nodup →
      ∀ b ∈ L, matchesFilters cfg b = true →
        lookupStatus (L.foldl (processBounty cfg) acc).state b.id = some b.status := by
  induction L with
  | nil => intro _ _ b hb; exact absurd hb (List.not_mem_nil b)
  | cons hd tl ih =>
    intro acc hnd b hb hm
    have hnd' : (tl.map Bounty.id).Nodup := (List.nodup_cons.mp hnd).2
    have hhd : hd.id ∉ tl.map Bounty.id := (List.nodup_cons.mp hnd).1
    rcases List.mem_cons.mp hb with hb | hb
    · subst hb
      rw [List.foldl_cons]
      rw [foldl_state_frame cfg tl b.id _
        (fun b' hb' _ => fun hc => hhd (hc ▸ List.mem_map_of_mem Bounty.id hb'))]
      exact processBounty_lookup_self cfg acc b hm
    · exact ih _ hnd' b hb hm

theorem foldl_stable (cfg : Config) (L : List Bounty) :
    ∀ acc : PollAcc,
      (∀ b ∈ L, matchesFilters cfg b = true →
        lookupStatus acc.state b.id = some b.status ∧ b.status ≠ "") →
      L.foldl (processBounty cfg) acc = acc := by
  induction L with
  | nil => intro acc _; rfl
  | cons hd tl ih =>
    intro acc h
    have hstep : processBounty cfg acc hd = acc := by
      by_cases hm : matchesFilters cfg hd
      · obtain ⟨h1, h2⟩ := h hd (List.mem_cons_self hd tl) hm
        exact processBounty_stable cfg acc hd h1 h2
      · exact processBounty_not_matching cfg acc hd (by simpa using hm)
    rw [List.foldl_cons, hstep]
    exact ih acc (fun b hb => h b (List.mem_cons_of_mem hd hb))

theorem processBounty_dispatches_shape (cfg : Config) (acc : PollAcc) (b : Bounty) :
    ∃ t : List (EventType × Bounty),
      (processBounty cfg acc b).dispatches = acc.dispatches ++ t ∧
      ∀ p ∈ t, matchesFilters cfg b = true ∧ p.2 = b := by
  by_cases hm : matchesFilters cfg b
  · unfold processBounty
    rcases hca : lookupStatus acc.state b.id with _ | s
    · refine ⟨if 0 < cfg.webhookUrls.length then [(EventType.created, b)] else [],
        by simp [hm, hca, jsFalsy], ?_⟩
      intro p hp
      by_cases hw : 0 < cfg.webhookUrls.length
      · simp [hw] at hp
        exact ⟨hm, by rw [hp]⟩
      · simp [hw] at hp
    · by_cases hse : s = ""
      · subst hse
        refine ⟨if 0 < cfg.webhookUrls.length then [(EventType.created, b)] else [],
          by simp [hm, hca, jsFalsy], ?_⟩
        intro p hp
        by_cases hw : 0 < cfg.webhookUrls.length
        · simp [hw] at hp
          exact ⟨hm, by rw [hp]⟩
        · simp [hw] at hp
      · by_cases he : s = b.status
        · subst he
          refine ⟨[], by simp [hm, hca, jsFalsy, hse], by intro p hp; simp at hp⟩
        · refine ⟨(match STATUS_TO_EVENT b.status with
            | some e => if 0 < cfg.webhookUrls.length then [(e, b)] else []
            | none => []),
            by simp [hm, hca, jsFalsy, hse, he], ?_⟩
          intro p hp
          rcases hev : STATUS_TO_EVENT b.status with _ | e
          · simp [hev] at hp
          · by_cases hw : 0 < cfg.webhookUrls.length
            · simp [hev, hw] at hp
              exact ⟨hm, by rw [hp]⟩
            · simp [hev, hw] at hp
  · refine ⟨[], ?_, by intro p hp; simp at hp⟩
    rw [processBounty_not_matching cfg acc b (by simpa using hm)]
    simp

theorem pollStates_frame (cfg : Config) (i : String) :
    ∀ (Ls : List (List Bounty)) (st : StateRec),
      (∀ L ∈ Ls, ∀ b ∈ L, matchesFilters cfg b = true → b.id ≠ i) →
      lookupStatus (pollStates cfg Ls st) i = lookupStatus st i := by
  intro Ls
  induction Ls with
  | nil => intro st _; rfl
  | cons L Ls ih =>
    intro st h
    rw [pollStates, ih _ (fun L' hL' => h L' (List.mem_cons_of_mem L hL'))]
    exact foldl_state_frame cfg L i ⟨st, 0, 0, []⟩ (h L (List.mem_cons_self L Ls))

theorem foldl_dispatches_matching (cfg : Config) (L : List Bounty) :
    ∀ acc : PollAcc, ∀ p ∈ (L.foldl (processBounty cfg) acc).dispatches,
      p ∈ acc.dispatches ∨ matchesFilters cfg p.2 = true := by
  induction L with
  | nil => intro acc p hp; exact Or.inl hp
  | cons hd tl ih =>
    intro acc p hp
    rw [List.foldl_cons] at hp
    rcases ih _ p hp with hmem | hm
    · obtain ⟨t, ht, htall⟩ := processBounty_dispatches_shape cfg acc hd
      rw [ht] at hmem
      rcases List.mem_append.mp hmem with h | h
      · exact Or.inl h
      · obtain ⟨hmhd, hpb⟩ := htall p h
        exact Or.inr (hpb ▸ hmhd)
    · exact Or.inr hm

/-! ### Further fixtures -/

/-- The empty loop accumulator over an empty state. -/
def accEmpty : PollAcc := ⟨[], 0, 0, []⟩

/-- A single-bounty fetch list with a plain open bounty. -/
def exSingle : List Bounty := [sampleBounty ("1") ("open")]

/-- A fetch list with an empty-status bounty and a duplicated identifier. -/
def exTwice : List Bounty :=
  [sampleBounty ("1") (""), sampleBounty ("2") ("open"), sampleBounty ("2") ("claimed")]

/-- True exactly on the upstream outcomes whose response body fails to
decode as JSON (`res.json()` throws). -/
def jsonDecodeFailed : UpstreamOutcome → Bool
  | UpstreamOutcome.response _ none => true
  | _ => false

/-! ### The claims -/

/-- C1 (counterexample): the second consecutive poll over the unchanged list
`exTwice` — starting from the state the first poll produced — returns
`created = 1` and `changed = 2`, not `created = changed = 0`: the
empty-status bounty is re-classified as new every cycle, and the duplicated
identifier flips its stored status back and forth within one cycle. -/
theorem poll_second_run_counterexample :
    (poll cfgPlain (runCycle cfgPlain [] exTwice).state (some exTwice) false noFail).result.created
        = 1 ∧
    (poll cfgPlain (runCycle cfgPlain [] exTwice).state (some exTwice) false noFail).result.changed
        = 2 := by
  decide

/-- C1 (amended): if no two bounties of `L` share an identifier and every
bounty of `L` has a non-empty status, then running the poll cycle on `L`
(successfully saving state) and running it again on the unchanged `L` from
the saved state yields `created = 0` and `changed = 0` on the second run,
for any save outcome and webhook behaviour of the second run. -/
theorem poll_second_run_quiescent (cfg : Config) (L : List Bounty)
    (st0 st1 : StateRec) (sf : Bool) (wf wf' : String → Bool)
    (hids : (L.map Bounty.id).Nodup)
    (hst : ∀ b ∈ L, b.status ≠ "")
    (h1 : (poll cfg st0 (some L) false wf).saved = some st1) :
    (poll cfg st1 (some L) sf wf').result.created = 0 ∧
    (poll cfg st1 (some L) sf wf').result.changed = 0 := by
  have hsv : st1 = (runCycle cfg st0 L).state := by
    have hdef : (poll cfg st0 (some L) false wf).saved = some (runCycle cfg st0 L).state := rfl
    rw [hdef] at h1
    exact (Option.some.inj h1).symm
  have hstab : runCycle cfg st1 L = ⟨st1, 0, 0, []⟩ := by
    unfold runCycle
    apply foldl_stable
    intro b hb hm
    refine ⟨?_, hst b hb⟩
    rw [hsv]
    exact foldl_lookup_of_mem cfg L ⟨st0, 0, 0, []⟩ hids b hb hm
  have hc : (poll cfg st1 (some L) sf wf').result.created = (runCycle cfg st1 L).created := by
    cases sf <;> rfl
  have hch : (poll cfg st1 (some L) sf wf').result.changed = (runCycle cfg st1 L).changed := by
    cases sf <;> rfl
  rw [hc, hch, hstab]
  exact ⟨rfl, rfl⟩

/-- C1 (witness): instantiated on the one-bounty list `exSingle` from the
empty state; the first run saves `[("1", "open")]`, and the second run over
the unchanged list reports no created and no changed bounties. -/
theorem poll_second_run_quiescent_witness :
    (poll cfgPlain [("1", "open")] (some exSingle) false noFail).result.created = 0 ∧
    (poll cfgPlain [("1", "open")] (some exSingle) false noFail).result.changed = 0 :=
  poll_second_run_quiescent cfgPlain exSingle [] [("1", "open")] false noFail noFail
    (by decide) (by decide) (by decide)

/-- C2: a bounty that passes the filter and whose identifier is absent from
the loaded state is classified as new: its current status is recorded, a
`bounty.created` event is dispatched exactly when at least one destination
is configured, and `created` is incremented — with no constraint on the
bounty's status value, so a bounty first seen as `completed` also yields
`bounty.created`. -/
theorem processBounty_new (cfg : Config) (acc : PollAcc) (b : Bounty)
    (hm : matchesFilters cfg b = true)
    (hprev : lookupStatus acc.state b.id = none) :
    lookupStatus (processBounty cfg acc b).state b.id = some b.status ∧
    (processBounty cfg acc b).created = acc.created + 1 ∧
    (processBounty cfg acc b).changed = acc.changed ∧
    (processBounty cfg acc b).dispatches = acc.dispatches ++
      (if cfg.webhookUrls.length > 0 then [(EventType.created, b)] else []) := by
  unfold processBounty
  simp [hm, hprev, jsFalsy, lookupStatus_setStatus_self]

/-- C2 (witness): a bounty first seen with status `completed`, with one
destination configured, produces exactly one `bounty.created` dispatch. -/
theorem processBounty_new_witness :
    lookupStatus (processBounty cfgHooks accEmpty (sampleBounty ("9") ("completed"))).state
        (sampleBounty ("9") ("completed")).id = some (sampleBounty ("9") ("completed")).status ∧
    (processBounty cfgHooks accEmpty (sampleBounty ("9") ("completed"))).created
        = accEmpty.created + 1 ∧
    (processBounty cfgHooks accEmpty (sampleBounty ("9") ("completed"))).changed
        = accEmpty.changed ∧
    (processBounty cfgHooks accEmpty (sampleBounty ("9") ("completed"))).dispatches
        = accEmpty.dispatches ++
          (if cfgHooks.webhookUrls.length > 0
            then [(EventType.created, sampleBounty ("9") ("completed"))] else []) :=
  processBounty_new cfgHooks accEmpty (sampleBounty ("9") ("completed")) (by decide) (by decide)

/-- C3 (counterexample): an identifier can be present in the loaded state
with a differing fetched status and yet not be counted as changed: with
stored status `""` and fetched status `"open"`, the cycle increments
`created`, not `changed`, because the empty stored status is falsy. -/
theorem processBounty_status_changed_counterexample :
    lookupStatus [("1", "")] ("1") = some ("") ∧
    (processBounty cfgHooks ⟨[("1", "")], 0, 0, []⟩ (sampleBounty ("1") ("open"))).changed = 0 ∧
    (processBounty cfgHooks ⟨[("1", "")], 0, 0, []⟩ (sampleBounty ("1") ("open"))).created = 1 := by
  decide

/-- C3 (amended): for a filtered-in bounty whose identifier is present in
the loaded state with a NON-EMPTY stored status differing from the fetched
status, the cycle dispatches the event mapped from the new status exactly
when the fixed table maps it and at least one destination is configured, and
in all such cases (unmapped statuses included) overwrites the stored status
and increments `changed`. -/
theorem processBounty_status_changed (cfg : Config) (acc : PollAcc) (b : Bounty) (s : String)
    (hm : matchesFilters cfg b = true)
    (hprev : lookupStatus acc.state b.id = some s)
    (hne : s ≠ "") (hdiff : s ≠ b.status) :
    (processBounty cfg acc b).changed = acc.changed + 1 ∧
    (processBounty cfg acc b).created = acc.created ∧
    lookupStatus (processBounty cfg acc b).state b.id = some b.status ∧
    (processBounty cfg acc b).dispatches = acc.dispatches ++
      (match STATUS_TO_EVENT b.status with
        | some e => if cfg.webhookUrls.length > 0 then [(e, b)] else []
        | none => []) := by
  unfold processBounty
  simp [hm, hprev, jsFalsy, hne, hdiff, lookupStatus_setStatus_self]

/-- C3 (witness): a bounty stored as `open` and fetched as `claimed`, with
one destination configured, yields one `bounty.claimed` dispatch, the stored
status `claimed`, and `changed` incremented. -/
theorem processBounty_status_changed_witness :
    (processBounty cfgHooks ⟨[("5", "open")], 0, 0, []⟩ (sampleBounty ("5") ("claimed"))).changed
        = (⟨[("5", "open")], 0, 0, []⟩ : PollAcc).changed + 1 ∧
    (processBounty cfgHooks ⟨[("5", "open")], 0, 0, []⟩ (sampleBounty ("5") ("claimed"))).created
        = (⟨[("5", "open")], 0, 0, []⟩ : PollAcc).created ∧
    lookupStatus
        (processBounty cfgHooks ⟨[("5", "open")], 0, 0, []⟩
          (sampleBounty ("5") ("claimed"))).state (sampleBounty ("5") ("claimed")).id
        = some (sampleBounty ("5") ("claimed")).status ∧
    (processBounty cfgHooks ⟨[("5", "open")], 0, 0, []⟩ (sampleBounty ("5") ("claimed"))).dispatches
        = (⟨[("5", "open")], 0, 0, []⟩ : PollAcc).dispatches ++
          (match STATUS_TO_EVENT (sampleBounty ("5") ("claimed")).status with
            | some e =>
              if cfgHooks.webhookUrls.length > 0 then [(e, sampleBounty ("5") ("claimed"))] else []
            | none => []) :=
  processBounty_status_changed cfgHooks ⟨[("5", "open")], 0, 0, []⟩
    (sampleBounty ("5") ("claimed")) ("open") (by decide) (by decide) (by decide) (by decide)

/-- C4: when the upstream fetch fails, `poll` returns
`created = 0, changed = 0, errors = 1`, fires no webhooks, attempts no
deliveries, and writes no state. -/
theorem poll_fetch_failure (cfg : Config) (st : StateRec) (sf : Bool) (wf : String → Bool) :
    poll cfg st none sf wf = ⟨⟨0, 0, 1⟩, none, [], []⟩ := rfl

/-- C5: `matchesFilters` accepts a bounty iff (1) when the configured tag
filter is non-empty, some bounty tag is case-insensitively present in it,
and (2) when the configured minimum-reward threshold is positive, the
bounty's reward divided by 1,000,000 is at least the threshold; an empty
filter or zero threshold is trivially satisfied.  The hypothesis records the
startup invariant that configured filter tags are already lower-cased. -/
theorem matchesFilters_spec (cfg : Config) (b : Bounty)
    (htags : ∀ t ∈ cfg.filterTags, lowerStr t = t) :
    matchesFilters cfg b = true ↔
      ((cfg.filterTags ≠ [] → ∃ t ∈ b.tags, ∃ s ∈ cfg.filterTags, lowerStr t = lowerStr s) ∧
       (0 < cfg.minReward → cfg.minReward ≤ (b.reward : ℚ) / 1000000)) := by
  unfold matchesFilters
  by_cases h1 : (decide (cfg.filterTags.length > 0)
      && ! (b.tags.any fun t => cfg.filterTags.contains (lowerStr t))) = true
  · simp only [h1, if_true]
    simp only [Bool.and_eq_true, decide_eq_true_iff, Bool.not_eq_true'] at h1
    obtain ⟨hlen, hany⟩ := h1
    constructor
    · intro hfalse; exact absurd hfalse (by simp)
    · rintro ⟨hA, _⟩
      obtain ⟨t, ht, s, hsmem, heq⟩ := hA (List.ne_nil_of_length_pos hlen)
      have hts : lowerStr t = s := heq.trans (htags s hsmem)
      have hcontains : cfg.filterTags.contains (lowerStr t) = true := by
        rw [hts]
        exact List.elem_eq_true_of_mem hsmem
      have : b.tags.any (fun t => cfg.filterTags.contains (lowerStr t)) = true :=
        List.any_eq_true.mpr ⟨t, ht, hcontains⟩
      rw [hany] at this
      exact absurd this (by simp)
  · by_cases h2 : (decide (0 < cfg.minReward)
        && decide ((b.reward : ℚ) / 1000000 < cfg.minReward)) = true
    · simp only [h1, h2, if_false, if_true, Bool.false_eq_true, false_iff]
      simp only [Bool.and_eq_true, decide_eq_true_iff] at h2
      rintro ⟨_, hB⟩
      exact absurd (h2.2) (not_lt.mpr (hB h2.1))
    · rw [if_neg h1, if_neg h2]
      simp only [Bool.and_eq_true, decide_eq_true_iff, Bool.not_eq_true',
        not_and, Bool.not_eq_false] at h1 h2
      refine ⟨fun _ => ⟨?_, ?_⟩, fun _ => rfl⟩
      · intro hne
        have hany := h1 (List.length_pos.mpr hne)
        obtain ⟨t, ht, hc⟩ := List.any_eq_true.mp hany
        exact ⟨t, ht, lowerStr t, List.mem_of_elem_eq_true hc,
          (htags (lowerStr t) (List.mem_of_elem_eq_true hc)).symm⟩
      · intro hmin
        exact not_lt.mp (h2 hmin)

/-- C5 (witness): with a lower-cased one-tag filter `["ai"]` and zero
threshold, the characterization holds for a bounty tagged `["AI", "misc"]`. -/
theorem matchesFilters_spec_witness :
    matchesFilters cfgTagged
        ⟨"5", "", "", ["AI", "misc"], 0, "", "claimed", "", 0, 0, none, none, none⟩ = true ↔
      ((cfgTagged.filterTags ≠ [] →
        ∃ t ∈ (⟨"5", "", "", ["AI", "misc"], 0, "", "claimed", "", 0, 0, none, none,
            none⟩ : Bounty).tags,
          ∃ s ∈ cfgTagged.filterTags, lowerStr t = lowerStr s) ∧
       (0 < cfgTagged.minReward →
        cfgTagged.minReward ≤
          (((⟨"5", "", "", ["AI", "misc"], 0, "", "claimed", "", 0, 0, none, none,
            none⟩ : Bounty).reward : ℚ)) / 1000000)) :=
  matchesFilters_spec cfgTagged
    ⟨"5", "", "", ["AI", "misc"], 0, "", "claimed", "", 0, 0, none, none, none⟩ (by decide)

/-- C6: a bounty that fails the filter leaves the loop accumulator entirely
untouched, every dispatched payload carries a bounty that passes the filter,
and across any chain of successful polls an identifier touched by no
filtered-in bounty keeps exactly its original state entry (in particular, a
never-matching bounty is never added to the state record). -/
theorem filtered_bounty_frame (cfg : Config) (Ls : List (List Bounty)) (st : StateRec)
    (i : String)
    (h : ∀ L ∈ Ls, ∀ b ∈ L, matchesFilters cfg b = true → b.id ≠ i) :
    lookupStatus (pollStates cfg Ls st) i = lookupStatus st i ∧
    (∀ acc b, matchesFilters cfg b = false → processBounty cfg acc b = acc) ∧
    (∀ L sf wf, ∀ p ∈ (poll cfg st (some L) sf wf).dispatches,
      matchesFilters cfg p.2 = true) := by
  refine ⟨pollStates_frame cfg i Ls st h,
    fun acc b hb => processBounty_not_matching cfg acc b hb, ?_⟩
  intro L sf wf p hp
  have hd : (poll cfg st (some L) sf wf).dispatches = (runCycle cfg st L).dispatches := by
    cases sf <;> rfl
  rw [hd] at hp
  rcases foldl_dispatches_matching cfg L ⟨st, 0, 0, []⟩ p hp with h0 | hm
  · exact absurd h0 (List.not_mem_nil p)
  · exact hm

/-- C6 (witness): with tag filter `["ai"]`, a bounty tagged `["other"]`
polled twice is never added to state, the step is a no-op on it, and no
dispatch carries a non-matching bounty. -/
theorem filtered_bounty_frame_witness :
    lookupStatus
        (pollStates cfgTagged
          [[⟨"3", "", "", ["other"], 0, "", "open", "", 0, 0, none, none, none⟩],
           [⟨"3", "", "", ["other"], 0, "", "open", "", 0, 0, none, none, none⟩]] [])
        ("3") = lookupStatus [] ("3") ∧
    (∀ acc b, matchesFilters cfgTagged b = false → processBounty cfgTagged acc b = acc) ∧
    (∀ L sf wf, ∀ p ∈ (poll cfgTagged [] (some L) sf wf).dispatches,
      matchesFilters cfgTagged p.2 = true) :=
  filtered_bounty_frame cfgTagged
    [[⟨"3", "", "", ["other"], 0, "", "open", "", 0, 0, none, none, none⟩],
     [⟨"3", "", "", ["other"], 0, "", "open", "", 0, 0, none, none, none⟩]] [] ("3")
    (by decide)

/-- C7 (counterexample): an upstream response whose body fails to decode as
JSON is not mirrored: upstream status 200 with an undecodable body yields
the fixed 502 proxy-error response, although the upstream call was not a
transport failure. -/
theorem handleCreateProxy_counterexample :
    handleCreateProxy (UpstreamOutcome.response 200 none) = (502, ProxyBody.proxyError) ∧
    (handleCreateProxy (UpstreamOutcome.response 200 none)).1 ≠ 200 := by
  decide

/-- C7 (amended): the `/bounties` POST handler mirrors the upstream status
code and decoded JSON body whenever decoding succeeds, and returns the fixed
502 proxy-error response exactly when the attempt produced no upstream
response (transport failure) or the upstream body failed to decode as
JSON. -/
theorem handleCreateProxy_spec (s : Nat) (j : String) (u : UpstreamOutcome) :
    handleCreateProxy (UpstreamOutcome.response s (some j)) = (s, ProxyBody.upstream j) ∧
    (handleCreateProxy u = (502, ProxyBody.proxyError) ↔
      u = UpstreamOutcome.noResponse ∨ jsonDecodeFailed u = true) := by
  refine ⟨rfl, ?_⟩
  rcases u with _ | ⟨st, _ | jb⟩ <;> simp [handleCreateProxy, jsonDecodeFailed]

/-- C8 (counterexample): the malformed poll-interval value `"abc"` does not
fall back to the 60-second default: it parses to NaN (no value), while the
default configuration value is 60000 ms. -/
theorem loadConfig_counterexample :
    loadPollIntervalMs (some ("abc")) = none ∧
    loadPollIntervalMs none = some 60000 ∧
    loadPollIntervalMs (some ("abc")) ≠ loadPollIntervalMs none := by
  decide

/-- C8 (amended): numeric configuration loading falls back to the default
exactly for an unset or empty environment value; a malformed non-empty value
with no parseable numeric prefix yields NaN (no value) — not the default —
for the poll interval, the minimum-reward threshold, and the port, and
startup performs no validation that would fail. -/
theorem loadConfig_spec (e : Option String) (s : String)
    (he : e = none ∨ e = some (""))
    (hs : s ≠ "")
    (hbadInt : jsParseInt s = none)
    (hbadFloat : jsParseFloat s = none) :
    (loadPollIntervalMs e = some 60000 ∧ loadMinReward e = some 0 ∧ loadPort e = some 3001) ∧
    (loadPollIntervalMs (some s) = none ∧ loadMinReward (some s) = none ∧
      loadPort (some s) = none) := by
  constructor
  · rcases he with he | he <;> subst he <;> exact ⟨by decide, by decide, by decide⟩
  · have henv : ∀ d : String, envOrDefault (some s) d = s := by
      intro d
      simp [envOrDefault, hs]
    refine ⟨?_, ?_, ?_⟩ <;>
      simp [loadPollIntervalMs, loadMinReward, loadPort, henv, hbadInt, hbadFloat]

/-- C8 (witness): instantiated at an unset environment and the malformed
value `"x"`. -/
theorem loadConfig_spec_witness :
    (loadPollIntervalMs none = some 60000 ∧ loadMinReward none = some 0 ∧
      loadPort none = some 3001) ∧
    (loadPollIntervalMs (some ("x")) = none ∧ loadMinReward (some ("x")) = none ∧
      loadPort (some ("x")) = none) :=
  loadConfig_spec none ("x") (Or.inl rfl) (by decide) (by decide) (by decide)

/-- C9: a filtered-in bounty with empty status whose identifier is stored
with the empty status (as a previous cycle left it) is classified as new
again: `created` is incremented, a `bounty.created` event is dispatched
exactly when a destination is configured, `changed` is untouched, and the
stored entry remains the empty status — so the classification repeats every
cycle. -/
theorem processBounty_empty_status_new (cfg : Config) (acc : PollAcc) (b : Bounty)
    (hm : matchesFilters cfg b = true)
    (hst : b.status = "")
    (hprev : lookupStatus acc.state b.id = some ("")) :
    (processBounty cfg acc b).created = acc.created + 1 ∧
    (processBounty cfg acc b).changed = acc.changed ∧
    lookupStatus (processBounty cfg acc b).state b.id = some ("") ∧
    (processBounty cfg acc b).dispatches = acc.dispatches ++
      (if cfg.webhookUrls.length > 0 then [(EventType.created, b)] else []) := by
  unfold processBounty
  simp [hm, hprev, jsFalsy, hst, lookupStatus_setStatus_self]

/-- C9 (witness): a bounty with empty status already stored as `""` is
counted as created again and dispatches `bounty.created`. -/
theorem processBounty_empty_status_new_witness :
    (processBounty cfgHooks ⟨[("7", "")], 0, 0, []⟩ (sampleBounty ("7") (""))).created
        = (⟨[("7", "")], 0, 0, []⟩ : PollAcc).created + 1 ∧
    (processBounty cfgHooks ⟨[("7", "")], 0, 0, []⟩ (sampleBounty ("7") (""))).changed
        = (⟨[("7", "")], 0, 0, []⟩ : PollAcc).changed ∧
    lookupStatus (processBounty cfgHooks ⟨[("7", "")], 0, 0, []⟩
        (sampleBounty ("7") (""))).state (sampleBounty ("7") ("")).id = some ("") ∧
    (processBounty cfgHooks ⟨[("7", "")], 0, 0, []⟩ (sampleBounty ("7") (""))).dispatches
        = (⟨[("7", "")], 0, 0, []⟩ : PollAcc).dispatches ++
          (if cfgHooks.webhookUrls.length > 0
            then [(EventType.created, sampleBounty ("7") (""))] else []) :=
  processBounty_empty_status_new cfgHooks ⟨[("7", "")], 0, 0, []⟩ (sampleBounty ("7") (""))
    (by decide) (by decide) (by decide)

/-- C10: `poll` is a total function — its `errors` counter is 1 exactly when
the fetch failed or the state save failed (each aborting the rest of the
cycle), hence always 0 or 1 — and its counters, saved state and dispatches
are independent of which per-destination webhook deliveries fail. -/
theorem poll_total_and_single_error (cfg : Config) (st : StateRec)
    (fetched : Option (List Bounty)) (sf : Bool) (wf wf' : String → Bool) :
    ((poll cfg st fetched sf wf).result.errors = if fetched.isNone || sf then 1 else 0) ∧
    ((poll cfg st fetched sf wf).result.errors = 0 ∨
      (poll cfg st fetched sf wf).result.errors = 1) ∧
    (poll cfg st fetched sf wf).result = (poll cfg st fetched sf wf').result ∧
    (poll cfg st fetched sf wf).saved = (poll cfg st fetched sf wf').saved ∧
    (poll cfg st fetched sf wf).dispatches = (poll cfg st fetched sf wf').dispatches := by
  rcases fetched with _ | L <;> cases sf <;> simp [poll]

end BountyZapier
